import Mathlib

/-!
Verification of the kronosnet payload-compression dispatcher
(`libknet/compress.c`) against its natural-language specification.

The embedding mirrors the C source.  Third-party codec back-ends, the
pthread reader/writer lock and the monotonic clock are opaque to the
dispatcher; their outcomes are supplied by an `Env` oracle, and the
presence of each function-pointer slot of a table row is recorded as a
`has_*` boolean (the back-end adapters themselves are out of scope).
Machine `int` fields (`libref`, `max_model`, the `get_model` return
value) are embedded as `Int`; `errno` values as `Nat`.
-/

namespace Knet

/-- errno value returned for rate-limited load attempts (`EAGAIN`). -/
def EAGAIN : Nat := 11

/-- errno value for invalid-argument failures (`EINVAL`). -/
def EINVAL : Nat := 22

/-- One entry of `compress_modules_cmds` (struct `compress_model_t`).
Function-pointer slots are represented by their non-NULL-ness. -/
structure ModelRow where
  model_name : Option String
  model_id : Nat
  built_in : Bool
  has_load_lib : Bool
  has_unload_lib : Bool
  loaded : Bool
  libref : Int
  has_is_init : Bool
  has_init : Bool
  has_fini : Bool
  has_val_level : Bool
  has_compress : Bool
  has_decompress : Bool
deriving DecidableEq, Repr

/-- The `empty_module` initializer macro: `built_in = 0`, all operation
slots NULL, `loaded = 0`, `libref = 0`. -/
def empty_module (name : Option String) (id : Nat) : ModelRow where
  model_name := name
  model_id := id
  built_in := false
  has_load_lib := false
  has_unload_lib := false
  loaded := false
  libref := 0
  has_is_init := false
  has_init := false
  has_fini := false
  has_val_level := false
  has_compress := false
  has_decompress := false

/-- A row whose codec is compiled in: `built_in = 1`, load/unload,
val_level, compress and decompress slots set; `is_init`/`init`/`fini`
slots set only for back-ends that keep per-handle state (lzo2). -/
def full_module (name : String) (id : Nat) (perHandleOps : Bool) : ModelRow where
  model_name := some name
  model_id := id
  built_in := true
  has_load_lib := true
  has_unload_lib := true
  loaded := false
  libref := 0
  has_is_init := perHandleOps
  has_init := perHandleOps
  has_fini := perHandleOps
  has_val_level := true
  has_compress := true
  has_decompress := true

/-- The compile-time `BUILDCOMP*` flags.  `lz4` covers both the lz4 and
lz4hc rows, which are guarded by the same `BUILDCOMPLZ4` flag. -/
structure BuildFlags where
  zlib : Bool
  lz4 : Bool
  lzo2 : Bool
  lzma : Bool
  bzip2 : Bool
deriving DecidableEq, Repr

/-- The static table `compress_modules_cmds[]`, terminated by the
`{ NULL, 255, empty_module }` sentinel. -/
def compress_modules_cmds (bf : BuildFlags) : List ModelRow :=
  [ empty_module (some "none") 0,
    if bf.zlib then full_module "zlib" 1 false else empty_module (some "zlib") 1,
    if bf.lz4 then full_module "lz4" 2 false else empty_module (some "lz4") 2,
    if bf.lz4 then full_module "lz4hc" 3 false else empty_module (some "lz4hc") 3,
    if bf.lzo2 then full_module "lzo2" 4 true else empty_module (some "lzo2") 4,
    if bf.lzma then full_module "lzma" 5 false else empty_module (some "lzma") 5,
    if bf.bzip2 then full_module "bzip2" 6 false else empty_module (some "bzip2") 6,
    empty_module none 255 ]

/-- Reading past the table in C is undefined; the getter defaults to the
sentinel row so that the embedding stays total. -/
def sentinel : ModelRow := empty_module none 255

/-- Process-wide mutable state of the dispatcher: the table rows
(`loaded`/`libref` are the mutable fields), the static
`last_load_failure` timespec (collapsed to one monotonic nanosecond
count, `0` encoding the zeroed timespec) and the static `max_model`. -/
structure GlobalState where
  table : List ModelRow
  last_load_failure : Nat
  max_model : Int
deriving DecidableEq, Repr

def GlobalState.row (st : GlobalState) (m : Nat) : ModelRow :=
  st.table.getD m sentinel

def GlobalState.setRow (st : GlobalState) (m : Nat) (r : ModelRow) : GlobalState :=
  { st with table := st.table.set m r }

/-- The `knet_h` fields owned by this subsystem: the configured model,
level and threshold, plus the `compress_int_data[]` slots (only their
non-NULL-ness matters to the dispatcher). -/
structure Handle where
  compress_model : Nat
  compress_level : Int
  compress_threshold : Nat
  compress_int_data : Nat → Bool

def Handle.setIntData (h : Handle) (m : Nat) (v : Bool) : Handle :=
  { h with compress_int_data := fun j => if j = m then v else h.compress_int_data j }

/-- Oracle for everything outside the dispatcher: pthread lock results
(`0` = acquired), the monotonic clock, and the opaque back-end call
outcomes. -/
structure Env where
  rdlock_errno : Nat
  wrlock_errno : Nat
  clock_now : Nat
  load_lib_ok : Nat → Bool
  load_errno : Nat
  is_init_res : Nat → Bool
  init_ok : Nat → Bool
  init_errno : Nat
  val_level_ok : Nat → Int → Bool
  compress_ret : Int → Int
  compress_errno : Int → Nat
  decompress_ret : Int → Int
  decompress_errno : Int → Nat

/-- Calls made into a back-end, recorded so that theorems can speak
about which operations an execution attempted. -/
inductive Ev where
  | loadLib (m : Nat)
  | unloadLib (m : Nat)
  | isInitCall (m : Nat)
  | initCall (m : Nat)
  | finiCall (m : Nat)
  | valLevelCall (m : Nat)
  | codecCompress (m : Nat) (in_len : Int)
  | codecDecompress (m : Nat) (in_len : Int)
deriving DecidableEq, Repr

/-- The distinct log messages emitted by `compress.c`, with the data
they interpolate. -/
inductive Log where
  | rdlockFail
  | wrlockFail
  | tooManyMethods
  | initializingModule (name : String) (level : Int) (threshold : Nat)
  | modelNotSupported (name : String)
  | modelNotBuiltIn (name : String)
  | loadOrInitFailCfg (name : String) (errno : Nat)
  | levelNotSupported (level : Int) (name : String)
  | thresholdTooHigh
  | thresholdResetToDefault (d : Nat)
  | unloadingLib (name : Option String)
  | loadOrInitFailCompress (name : Option String) (errno : Nat)
  | unknownCompressModel (m : Nat)
  | decompressNotBuiltIn (name : Option String)
  | loadOrInitFailDecompress (name : Option String) (errno : Nat)
deriving DecidableEq, Repr

/-- Outcome of `check_init_lib` / `compress_cfg` / `compress_init`:
success, `-1` with the given errno, or a call through a NULL function
pointer (undefined behaviour in the C source). -/
inductive CIOut where
  | ok
  | err (errno : Nat)
  | nullCall
deriving DecidableEq, Repr

/-- Outcome of the transform entry points `compress`/`decompress`: the
back-end's own return value and errno passed through unchanged, an
error of the dispatcher itself, or a NULL-pointer call. -/
inductive TOut where
  | codec (ret : Int) (errno : Nat)
  | err (errno : Nat)
  | nullCall
deriving DecidableEq, Repr

structure CIRes where
  out : CIOut
  st : GlobalState
  h : Handle
  evs : List Ev
  logs : List Log

structure TRes where
  out : TOut
  st : GlobalState
  h : Handle
  evs : List Ev
  logs : List Log

structure FRes where
  st : GlobalState
  h : Handle
  evs : List Ev
  logs : List Log

/-- The 10-second rate-limit window, `10000000000` nanoseconds. -/
def rate_limit_window : Nat := 10000000000

/-- Lines 220–231 of `check_init_lib`: optional per-handle `init` (or
the `&"1"` sentinel stored in `compress_int_data`), then `libref++`.
`row` is the current value of the table entry `m`. -/
def init_step (st : GlobalState) (row : ModelRow) (h : Handle) (m : Nat)
    (env : Env) (evs : List Ev) : CIRes :=
  if row.has_init = true then
    if env.init_ok m = false then
      ⟨.err env.init_errno, st, h, evs ++ [.initCall m], []⟩
    else
      ⟨.ok, st.setRow m { row with libref := row.libref + 1 }, h,
        evs ++ [.initCall m], []⟩
  else
    ⟨.ok, st.setRow m { row with libref := row.libref + 1 },
      h.setIntData m true, evs, []⟩

/-- Lines 211–231 of `check_init_lib`: the write-locked section.  A
failed `load_lib` records the current monotonic time in
`last_load_failure`; `loaded` is set only on load success. -/
def load_and_init (st : GlobalState) (h : Handle) (m : Nat) (env : Env)
    (evs : List Ev) : CIRes :=
  let row := st.row m
  if row.loaded = false then
    if row.has_load_lib = false then
      ⟨.nullCall, st, h, evs, []⟩
    else if env.load_lib_ok m = false then
      ⟨.err env.load_errno, { st with last_load_failure := env.clock_now }, h,
        evs ++ [.loadLib m], []⟩
    else
      init_step (st.setRow m { row with loaded := true })
        { row with loaded := true } h m env (evs ++ [.loadLib m])
  else
    init_step st row h m env evs

/-- The fast-path condition of `check_init_lib` (lines 162–172): the
module is loaded and this handle is already initialised for it, either
via `is_init` or via the `compress_int_data` sentinel. -/
def fast_path (st : GlobalState) (h : Handle) (m : Nat) (env : Env) : Prop :=
  (st.row m).loaded = true ∧
    (if (st.row m).has_is_init = true then env.is_init_res m = true
     else h.compress_int_data m = true)

instance (st : GlobalState) (h : Handle) (m : Nat) (env : Env) :
    Decidable (fast_path st h m env) := by
  unfold fast_path; infer_instance

/-- `check_init_lib` (lines 139–232): read lock, fast path, decompress
rate limit, write lock, load and init. -/
def check_init_lib (st : GlobalState) (h : Handle) (m : Nat)
    (rate_limit : Bool) (env : Env) : CIRes :=
  if env.rdlock_errno ≠ 0 then
    ⟨.err env.rdlock_errno, st, h, [], [.rdlockFail]⟩
  else
    let evs0 : List Ev :=
      if (st.row m).loaded = true ∧ (st.row m).has_is_init = true
      then [.isInitCall m] else []
    if fast_path st h m env then
      ⟨.ok, st, h, evs0, []⟩
    else if rate_limit = true ∧ st.last_load_failure ≠ 0 ∧
        env.clock_now - st.last_load_failure < rate_limit_window then
      ⟨.err EAGAIN, st, h, evs0, []⟩
    else if env.wrlock_errno ≠ 0 then
      ⟨.err env.wrlock_errno, st, h, evs0, [.wrlockFail]⟩
    else
      load_and_init st h m env evs0

/-- `get_model`: linear scan of the names, `-1` when not found. -/
def get_model : List ModelRow → String → Int
  | [], _ => -1
  | r :: rest, model =>
    match r.model_name with
    | none => -1
    | some n => if n = model then (r.model_id : Int) else get_model rest model

/-- `get_max_model`: the number of rows before the NULL-name sentinel. -/
def named_count : List ModelRow → Nat
  | [] => 0
  | r :: rest => if r.model_name = none then 0 else named_count rest + 1

def get_max_model (table : List ModelRow) : Int :=
  (named_count table : Int) - 1

/-- `is_valid_model`: some row before the sentinel carries this
`model_id` with `built_in == 1` (C returns `0`; embedded as `true`). -/
def is_valid_model : List ModelRow → Nat → Bool
  | [], _ => false
  | r :: rest, m =>
    match r.model_name with
    | none => false
    | some _ =>
      if r.model_id = m ∧ r.built_in = true then true else is_valid_model rest m

structure InitRes where
  out : CIOut
  st : GlobalState
  logs : List Log

/-- `compress_init` (lines 234–247): cache `max_model`, reject a table
longer than the compile-time cap, zero `last_load_failure`. -/
def compress_init (cap : Nat) (st : GlobalState) : InitRes :=
  let mm := get_max_model st.table
  let st1 := { st with max_model := mm }
  if mm > (cap : Int) then
    ⟨.err EINVAL, st1, [.tooManyMethods]⟩
  else
    ⟨.ok, { st1 with last_load_failure := 0 }, []⟩

/-- The `knet_handle_compress_cfg` record passed to `compress_cfg`. -/
structure CompressCfg where
  compress_model : String
  compress_level : Int
  compress_threshold : Nat
deriving DecidableEq, Repr

/-- `compress_cfg` (lines 249–315).  `maxPacketSize` and
`defaultThreshold` stand for the constants `KNET_MAX_PACKET_SIZE` and
`KNET_COMPRESS_THRESHOLD` (declared outside this fragment). -/
def compress_cfg (maxPacketSize defaultThreshold : Nat) (st : GlobalState)
    (h : Handle) (cfg : CompressCfg) (env : Env) : CIRes :=
  let log0 : List Log :=
    [.initializingModule cfg.compress_model cfg.compress_level cfg.compress_threshold]
  let cmp_model := get_model st.table cfg.compress_model
  if cmp_model < 0 then
    ⟨.err EINVAL, st, h, [], log0 ++ [.modelNotSupported cfg.compress_model]⟩
  else if 0 < cmp_model then
    let m := cmp_model.toNat
    if (st.row m).built_in = false then
      ⟨.err EINVAL, st, h, [], log0 ++ [.modelNotBuiltIn cfg.compress_model]⟩
    else
      let ci := check_init_lib st h m false env
      match ci.out with
      | .err e =>
        ⟨.err e, ci.st, ci.h, ci.evs,
          log0 ++ ci.logs ++ [.loadOrInitFailCfg cfg.compress_model e]⟩
      | .nullCall => ⟨.nullCall, ci.st, ci.h, ci.evs, log0 ++ ci.logs⟩
      | .ok =>
        if (st.row m).has_val_level = false then
          ⟨.nullCall, ci.st, ci.h, ci.evs, log0 ++ ci.logs⟩
        else if env.val_level_ok m cfg.compress_level = false then
          ⟨.err EINVAL, ci.st, ci.h, ci.evs ++ [.valLevelCall m],
            log0 ++ ci.logs ++ [.levelNotSupported cfg.compress_level cfg.compress_model]⟩
        else if cfg.compress_threshold > maxPacketSize then
          ⟨.err EINVAL, ci.st, ci.h, ci.evs ++ [.valLevelCall m],
            log0 ++ ci.logs ++ [.thresholdTooHigh]⟩
        else
          let h1 :=
            if cfg.compress_threshold = 0
            then { ci.h with compress_threshold := defaultThreshold }
            else { ci.h with compress_threshold := cfg.compress_threshold }
          let logs1 : List Log :=
            if cfg.compress_threshold = 0 then [.thresholdResetToDefault defaultThreshold] else []
          ⟨.ok, ci.st,
            { h1 with compress_model := m, compress_level := cfg.compress_level },
            ci.evs ++ [.valLevelCall m], log0 ++ ci.logs ++ logs1⟩
  else
    ⟨.ok, st, { h with compress_model := 0, compress_level := cfg.compress_level },
      [], log0⟩

/-- The row update performed by one iteration of the `compress_fini`
loop on a row it processes. -/
def fini_row_update (cap idx : Nat) (r : ModelRow) : ModelRow :=
  if r.built_in = true ∧ r.loaded = true ∧ idx < cap then
    let r1 := { r with libref := r.libref - 1 }
    if r1.libref = 0 then { r1 with loaded := false } else r1
  else r

/-- One iteration of the `compress_fini` loop (lines 331–347): per-row
`fini` or `compress_int_data` reset, `libref--`, unload at zero. -/
def fini_row (cap : Nat) (r : ModelRow) (idx : Nat) (h : Handle) :
    ModelRow × Handle × List Ev × List Log :=
  if r.built_in = true ∧ r.loaded = true ∧ idx < cap then
    let hx : Handle × List Ev :=
      if r.has_fini = true then (h, [.finiCall idx]) else (h.setIntData idx false, [])
    let r1 := { r with libref := r.libref - 1 }
    if r1.libref = 0 then
      ({ r1 with loaded := false }, hx.1, hx.2 ++ [.unloadLib idx],
        [.unloadingLib r.model_name])
    else (r1, hx.1, hx.2, [])
  else (r, h, [], [])

/-- The `while` loop of `compress_fini`, stopping at the first row with
a NULL name. -/
def fini_loop (cap : Nat) : List ModelRow → Nat → Handle →
    List ModelRow × Handle × List Ev × List Log
  | [], _, h => ([], h, [], [])
  | r :: rest, idx, h =>
    if r.model_name = none then (r :: rest, h, [], [])
    else
      let p := fini_row cap r idx h
      let q := fini_loop cap rest (idx + 1) p.2.1
      (p.1 :: q.1, q.2.1, p.2.2.1 ++ q.2.2.1, p.2.2.2 ++ q.2.2.2)

/-- `compress_fini` (lines 317–353).  `cap` stands for
`KNET_MAX_COMPRESS_METHODS`. -/
def compress_fini (cap : Nat) (st : GlobalState) (h : Handle) (env : Env) : FRes :=
  if env.wrlock_errno ≠ 0 then
    ⟨st, h, [], [.wrlockFail]⟩
  else
    let q := fini_loop cap st.table 0 h
    ⟨{ st with table := q.1 }, q.2.1, q.2.2.1, q.2.2.2⟩

/-- `compress` (lines 355–378): ensure-init on the handle's configured
model with `rate_limit = 0`, then the back-end's `compress`, its return
value and errno passed through unchanged. -/
def compress (st : GlobalState) (h : Handle) (buf_in_len : Int) (env : Env) : TRes :=
  let m := h.compress_model
  let ci := check_init_lib st h m false env
  match ci.out with
  | .err e =>
    ⟨.err e, ci.st, ci.h, ci.evs,
      ci.logs ++ [.loadOrInitFailCompress (st.row m).model_name e]⟩
  | .nullCall => ⟨.nullCall, ci.st, ci.h, ci.evs, ci.logs⟩
  | .ok =>
    if (ci.st.row m).has_compress = false then
      ⟨.nullCall, ci.st, ci.h, ci.evs, ci.logs⟩
    else
      ⟨.codec (env.compress_ret buf_in_len) (env.compress_errno buf_in_len),
        ci.st, ci.h, ci.evs ++ [.codecCompress m buf_in_len], ci.logs⟩

/-- `decompress` (lines 380–416): validate the wire tag against
`max_model` and `is_valid_model`, ensure-init with `rate_limit = 1`,
then the back-end's `decompress`. -/
def decompress (st : GlobalState) (h : Handle) (compress_model : Nat)
    (buf_in_len : Int) (env : Env) : TRes :=
  if (compress_model : Int) > st.max_model then
    ⟨.err EINVAL, st, h, [], [.unknownCompressModel compress_model]⟩
  else if is_valid_model st.table compress_model = false then
    ⟨.err EINVAL, st, h, [], [.decompressNotBuiltIn (st.row compress_model).model_name]⟩
  else
    let ci := check_init_lib st h compress_model true env
    match ci.out with
    | .err e =>
      ⟨.err e, ci.st, ci.h, ci.evs,
        ci.logs ++ [.loadOrInitFailDecompress (st.row compress_model).model_name e]⟩
    | .nullCall => ⟨.nullCall, ci.st, ci.h, ci.evs, ci.logs⟩
    | .ok =>
      if (ci.st.row compress_model).has_decompress = false then
        ⟨.nullCall, ci.st, ci.h, ci.evs, ci.logs⟩
      else
        ⟨.codec (env.decompress_ret buf_in_len) (env.decompress_errno buf_in_len),
          ci.st, ci.h, ci.evs ++ [.codecDecompress compress_model buf_in_len], ci.logs⟩

/-! Concrete fixtures: a build with every codec compiled in, the state
after `compress_init`, a fresh handle, and an all-success environment. -/

def bfAll : BuildFlags := ⟨true, true, true, true, true⟩

def table0 : List ModelRow := compress_modules_cmds bfAll

/-- State after `compress_init` on the all-codecs build. -/
def st0 : GlobalState := ⟨table0, 0, 6⟩

/-- A fresh handle: no model, no per-model init data. -/
def h0 : Handle := ⟨0, 0, 0, fun _ => false⟩

/-- Environment in which locks, clock and back-ends all succeed. -/
def envOk : Env where
  rdlock_errno := 0
  wrlock_errno := 0
  clock_now := 42
  load_lib_ok := fun _ => true
  load_errno := 99
  is_init_res := fun _ => false
  init_ok := fun _ => true
  init_errno := 98
  val_level_ok := fun _ _ => true
  compress_ret := fun _ => 0
  compress_errno := fun _ => 0
  decompress_ret := fun _ => 0
  decompress_errno := fun _ => 0

/-- C1 counterexample state: zlib loaded with one reference,
`last_load_failure = 5` ns. -/
def st_c1 : GlobalState :=
  { st0.setRow 1 { st0.row 1 with loaded := true, libref := 1 } with
      last_load_failure := 5 }

/-- C1 counterexample handle: already initialised for zlib. -/
def h_c1 : Handle := h0.setIntData 1 true

/-- C1 counterexample environment: 1 ns after the recorded failure. -/
def env_c1 : Env := { envOk with clock_now := 6 }

end Knet

/-- C1: the claim asserts that on the decompress path, after the read
lock, a non-zero `last_load_failure` younger than 10 s always yields
EAGAIN.  False: the already-loaded-and-initialised fast path is checked
first and returns success inside the window. -/
theorem claim1_counterexample :
    Knet.st_c1.last_load_failure ≠ 0 ∧
    Knet.env_c1.clock_now - Knet.st_c1.last_load_failure < Knet.rate_limit_window ∧
    Knet.env_c1.rdlock_errno = 0 ∧
    (Knet.check_init_lib Knet.st_c1 Knet.h_c1 1 true Knet.env_c1).out = Knet.CIOut.ok := by
  decide

/-- C1 (amended): on the decompress path, when the fast path does not
apply, a non-zero `last_load_failure` younger than 10 s yields EAGAIN
with no state change and no load attempt; once 10 s have elapsed the
load is retried; and every `load_lib` failure, on either path, records
the current monotonic time in `last_load_failure`. -/
theorem claim1_rate_limit (st : Knet.GlobalState) (h : Knet.Handle) (m : Nat)
    (env : Knet.Env)
    (hrd : env.rdlock_errno = 0)
    (hfp : ¬ Knet.fast_path st h m env) :
    (st.last_load_failure ≠ 0 →
      env.clock_now - st.last_load_failure < Knet.rate_limit_window →
      (Knet.check_init_lib st h m true env).out = .err Knet.EAGAIN ∧
      (Knet.check_init_lib st h m true env).st = st ∧
      (Knet.check_init_lib st h m true env).h = h ∧
      ∀ k, Knet.Ev.loadLib k ∉ (Knet.check_init_lib st h m true env).evs) ∧
    (env.wrlock_errno = 0 →
      st.last_load_failure ≠ 0 →
      Knet.rate_limit_window ≤ env.clock_now - st.last_load_failure →
      (st.row m).loaded = false →
      (st.row m).has_load_lib = true →
      Knet.Ev.loadLib m ∈ (Knet.check_init_lib st h m true env).evs) ∧
    (∀ rl : Bool,
      env.wrlock_errno = 0 →
      (rl = true → st.last_load_failure = 0 ∨
        Knet.rate_limit_window ≤ env.clock_now - st.last_load_failure) →
      (st.row m).loaded = false →
      (st.row m).has_load_lib = true →
      env.load_lib_ok m = false →
      (Knet.check_init_lib st h m rl env).out = .err env.load_errno ∧
      (Knet.check_init_lib st h m rl env).st.last_load_failure = env.clock_now) := by
  refine ⟨?_, ?_, ?_⟩
  · intro hlf hdiff
    simp [Knet.check_init_lib, hrd, hfp, hlf, hdiff]
  · intro hwr hlf hdiff hld hll
    have hnd : ¬ env.clock_now - st.last_load_failure < Knet.rate_limit_window :=
      not_lt.mpr hdiff
    by_cases hlo : env.load_lib_ok m = false
    · simp [Knet.check_init_lib, hrd, hfp, hlf, hnd, hwr, Knet.load_and_init,
        hld, hll, hlo]
    · by_cases hin : (st.row m).has_init = true
      · by_cases hok : env.init_ok m = false <;>
          simp [Knet.check_init_lib, hrd, hfp, hlf, hnd, hwr, Knet.load_and_init,
            hld, hll, hlo, Knet.init_step, hin, hok]
      · simp [Knet.check_init_lib, hrd, hfp, hlf, hnd, hwr, Knet.load_and_init,
          hld, hll, hlo, Knet.init_step, hin]
  · intro rl hwr hrl hld hll hlo
    have hnb : ¬ (rl = true ∧ st.last_load_failure ≠ 0 ∧
        env.clock_now - st.last_load_failure < Knet.rate_limit_window) := by
      rintro ⟨h1, h2, h3⟩
      rcases hrl h1 with h4 | h4
      · exact h2 h4
      · exact absurd h3 (not_lt.mpr h4)
    simp [Knet.check_init_lib, hrd, hfp, hnb, hwr,
      Knet.load_and_init, hld, hll, hlo]

/-- C2: `decompress` with a wire tag above `max_model` or naming a
non-built-in row returns EINVAL, logs a message distinguishing the two
cases, and changes nothing: no back-end call, no table change, no
handle change. -/
theorem claim2_decompress_invalid (st : Knet.GlobalState) (h : Knet.Handle)
    (m : Nat) (buf_in_len : Int) (env : Knet.Env)
    (hbad : (m : Int) > st.max_model ∨ Knet.is_valid_model st.table m = false) :
    (Knet.decompress st h m buf_in_len env).out = .err Knet.EINVAL ∧
    (Knet.decompress st h m buf_in_len env).st = st ∧
    (Knet.decompress st h m buf_in_len env).h = h ∧
    (Knet.decompress st h m buf_in_len env).evs = [] ∧
    (Knet.decompress st h m buf_in_len env).logs =
      (if (m : Int) > st.max_model then [Knet.Log.unknownCompressModel m]
       else [Knet.Log.decompressNotBuiltIn (st.row m).model_name]) := by
  by_cases h1 : (m : Int) > st.max_model
  · simp [Knet.decompress, h1]
  · rcases hbad with hb | hb
    · exact absurd hb h1
    · simp [Knet.decompress, h1, hb]

/-- Witness for C2 at the crafted wire tag 200 of the end-to-end
scenario. -/
theorem claim2_witness :
    (Knet.decompress Knet.st0 Knet.h0 200 10 Knet.envOk).out = .err Knet.EINVAL ∧
    (Knet.decompress Knet.st0 Knet.h0 200 10 Knet.envOk).st = Knet.st0 ∧
    (Knet.decompress Knet.st0 Knet.h0 200 10 Knet.envOk).h = Knet.h0 ∧
    (Knet.decompress Knet.st0 Knet.h0 200 10 Knet.envOk).evs = [] ∧
    (Knet.decompress Knet.st0 Knet.h0 200 10 Knet.envOk).logs =
      (if (200 : Int) > Knet.st0.max_model then [Knet.Log.unknownCompressModel 200]
       else [Knet.Log.decompressNotBuiltIn (Knet.st0.row 200).model_name]) :=
  claim2_decompress_invalid Knet.st0 Knet.h0 200 10 Knet.envOk (by decide)

/-- C6: the claim asserts `compress_init` errors whenever the table
length excluding the sentinel exceeds the cap.  False at the boundary:
with cap 6 the table holds 7 named rows, yet `compress_init` succeeds,
because the code compares `max_model` (the length minus one) with the
cap. -/
theorem claim6_counterexample :
    6 < Knet.named_count Knet.st0.table ∧
    (Knet.compress_init 6 Knet.st0).out = Knet.CIOut.ok := by
  decide

/-- C6 (amended): `compress_init` reports EINVAL exactly when
`max_model` — the table length excluding the sentinel, minus one —
exceeds `KNET_MAX_COMPRESS_METHODS`, and on success the cached
`max_model` is at most the cap. -/
theorem claim6_init_cap (cap : Nat) (st : Knet.GlobalState) :
    ((Knet.compress_init cap st).out = .err Knet.EINVAL ↔
      Knet.get_max_model st.table > (cap : Int)) ∧
    ((Knet.compress_init cap st).out = .err Knet.EINVAL →
      (Knet.compress_init cap st).logs = [Knet.Log.tooManyMethods]) ∧
    ((Knet.compress_init cap st).out = Knet.CIOut.ok →
      (Knet.compress_init cap st).st.max_model ≤ (cap : Int) ∧
      (Knet.compress_init cap st).st.last_load_failure = 0) ∧
    (Knet.compress_init cap st).st.max_model = Knet.get_max_model st.table := by
  by_cases hgt : Knet.get_max_model st.table > (cap : Int)
  · simp [Knet.compress_init, hgt]
  · simp [Knet.compress_init, hgt, not_lt.mp hgt]

/-- Witness for C6 (amended) at the real table and a cap of 16. -/
theorem claim6_witness :
    (Knet.compress_init 16 Knet.st0).st.max_model ≤ (16 : Int) ∧
    (Knet.compress_init 16 Knet.st0).st.last_load_failure = 0 :=
  (claim6_init_cap 16 Knet.st0).2.2.1 (by decide)

namespace Knet

/-- C1 witness state: fresh table, `last_load_failure = 5` ns. -/
def st_lf5 : GlobalState := { st0 with last_load_failure := 5 }

/-- C3/C7 fixtures: a bzip2 configuration with an out-of-range level,
and an environment whose `val_level` rejects everything. -/
def cfg_c3 : CompressCfg := ⟨"bzip2", 1000, 0⟩

def env_badlevel : Env := { envOk with val_level_ok := fun _ _ => false }

/-- C4 counterexample state: zlib loaded with one reference charged by
some other handle. -/
def st_c4 : GlobalState := st0.setRow 1 { st0.row 1 with loaded := true, libref := 1 }

end Knet

/-- Witness for C1 (amended): within the 10 s window, with zlib not
loaded, `check_init_lib` on the decompress path returns EAGAIN and
leaves the state untouched. -/
theorem claim1_witness :
    (Knet.check_init_lib Knet.st_lf5 Knet.h0 1 true Knet.env_c1).out =
      .err Knet.EAGAIN ∧
    (Knet.check_init_lib Knet.st_lf5 Knet.h0 1 true Knet.env_c1).st = Knet.st_lf5 := by
  have hc := (claim1_rate_limit Knet.st_lf5 Knet.h0 1 Knet.env_c1
    (by decide) (by decide)).1 (by decide) (by decide)
  exact ⟨hc.1, hc.2.1⟩

/-- C3: the claim asserts that after a level rejected by `val_level`
the libref charge taken by ensure-init is released.  False: the charge
is not released; bzip2's `libref` goes from 0 to 1 across the failed
call. -/
theorem claim3_counterexample :
    (Knet.st0.row 6).libref = 0 ∧
    (Knet.compress_cfg 65536 100 Knet.st0 Knet.h0 Knet.cfg_c3 Knet.env_badlevel).out =
      .err Knet.EINVAL ∧
    Knet.Log.levelNotSupported 1000 "bzip2" ∈
      (Knet.compress_cfg 65536 100 Knet.st0 Knet.h0 Knet.cfg_c3 Knet.env_badlevel).logs ∧
    ((Knet.compress_cfg 65536 100 Knet.st0 Knet.h0 Knet.cfg_c3 Knet.env_badlevel).st.row 6).libref = 1 := by
  decide

/-- C3 (amended): when ensure-init succeeds and `val_level` then
rejects the level, `compress_cfg` returns EINVAL with a level-specific
log message, but performs no rollback: global state and handle are left
exactly as `check_init_lib` left them, so a libref charge taken by
ensure-init is kept, not released (it is released only by
`compress_fini`). -/
theorem claim3_level_reject (mp dt : Nat) (st : Knet.GlobalState) (h : Knet.Handle)
    (cfg : Knet.CompressCfg) (env : Knet.Env) (m : Nat)
    (hm : Knet.get_model st.table cfg.compress_model = (m : Int))
    (hpos : 0 < m)
    (hbi : (st.row m).built_in = true)
    (hci : (Knet.check_init_lib st h m false env).out = .ok)
    (hvl : (st.row m).has_val_level = true)
    (hbad : env.val_level_ok m cfg.compress_level = false) :
    (Knet.compress_cfg mp dt st h cfg env).out = .err Knet.EINVAL ∧
    Knet.Log.levelNotSupported cfg.compress_level cfg.compress_model ∈
      (Knet.compress_cfg mp dt st h cfg env).logs ∧
    (Knet.compress_cfg mp dt st h cfg env).st =
      (Knet.check_init_lib st h m false env).st ∧
    (Knet.compress_cfg mp dt st h cfg env).h =
      (Knet.check_init_lib st h m false env).h := by
  have h1 : ¬ ((m : Int) < 0) := not_lt.mpr (Int.natCast_nonneg m)
  have h2 : (0 : Int) < (m : Int) := Int.natCast_pos.mpr hpos
  simp [Knet.compress_cfg, hm, h1, h2, hbi, hci, hvl, hbad]

/-- Witness for C3 (amended) at the bzip2 fixture. -/
theorem claim3_witness :
    (Knet.compress_cfg 65536 100 Knet.st0 Knet.h0 Knet.cfg_c3 Knet.env_badlevel).st =
      (Knet.check_init_lib Knet.st0 Knet.h0 6 false Knet.env_badlevel).st ∧
    (Knet.compress_cfg 65536 100 Knet.st0 Knet.h0 Knet.cfg_c3 Knet.env_badlevel).h =
      (Knet.check_init_lib Knet.st0 Knet.h0 6 false Knet.env_badlevel).h := by
  have hc := claim3_level_reject 65536 100 Knet.st0 Knet.h0 Knet.cfg_c3
    Knet.env_badlevel 6 (by decide) (by decide) (by decide) (by decide)
    (by decide) (by decide)
  exact ⟨hc.2.2.1, hc.2.2.2⟩

/-- C7: on a configuration call with a non-zero valid model whose
ensure-init and level validation succeed: a threshold above
`KNET_MAX_PACKET_SIZE` yields EINVAL; a zero threshold sets the
documented default `KNET_COMPRESS_THRESHOLD` and logs it; any other
threshold is stored as requested. -/
theorem claim7_threshold (mp dt : Nat) (st : Knet.GlobalState) (h : Knet.Handle)
    (cfg : Knet.CompressCfg) (env : Knet.Env) (m : Nat)
    (hm : Knet.get_model st.table cfg.compress_model = (m : Int))
    (hpos : 0 < m)
    (hbi : (st.row m).built_in = true)
    (hci : (Knet.check_init_lib st h m false env).out = .ok)
    (hvl : (st.row m).has_val_level = true)
    (hok : env.val_level_ok m cfg.compress_level = true) :
    (cfg.compress_threshold > mp →
      (Knet.compress_cfg mp dt st h cfg env).out = .err Knet.EINVAL ∧
      Knet.Log.thresholdTooHigh ∈ (Knet.compress_cfg mp dt st h cfg env).logs) ∧
    (cfg.compress_threshold = 0 →
      (Knet.compress_cfg mp dt st h cfg env).out = Knet.CIOut.ok ∧
      (Knet.compress_cfg mp dt st h cfg env).h.compress_threshold = dt ∧
      Knet.Log.thresholdResetToDefault dt ∈
        (Knet.compress_cfg mp dt st h cfg env).logs) ∧
    (0 < cfg.compress_threshold → cfg.compress_threshold ≤ mp →
      (Knet.compress_cfg mp dt st h cfg env).out = Knet.CIOut.ok ∧
      (Knet.compress_cfg mp dt st h cfg env).h.compress_threshold =
        cfg.compress_threshold) := by
  have h1 : ¬ ((m : Int) < 0) := not_lt.mpr (Int.natCast_nonneg m)
  have h2 : (0 : Int) < (m : Int) := Int.natCast_pos.mpr hpos
  refine ⟨?_, ?_, ?_⟩
  · intro hgt
    simp [Knet.compress_cfg, hm, h1, h2, hbi, hci, hvl, hok, hgt]
  · intro hz
    simp [Knet.compress_cfg, hm, h1, h2, hbi, hci, hvl, hok, hz]
  · intro hp hle
    have hngt : ¬ (cfg.compress_threshold > mp) := not_lt.mpr hle
    have hnz : cfg.compress_threshold ≠ 0 := Nat.pos_iff_ne_zero.mp hp
    simp [Knet.compress_cfg, hm, h1, h2, hbi, hci, hvl, hok, hngt, hnz]

/-- Witness for C7: configuring zlib with threshold 0 succeeds and
resets the threshold to the default. -/
theorem claim7_witness :
    (Knet.compress_cfg 65536 100 Knet.st0 Knet.h0 ⟨"zlib", 6, 0⟩ Knet.envOk).out =
      Knet.CIOut.ok ∧
    (Knet.compress_cfg 65536 100 Knet.st0 Knet.h0 ⟨"zlib", 6, 0⟩ Knet.envOk).h.compress_threshold = 100 ∧
    Knet.Log.thresholdResetToDefault 100 ∈
      (Knet.compress_cfg 65536 100 Knet.st0 Knet.h0 ⟨"zlib", 6, 0⟩ Knet.envOk).logs :=
  (claim7_threshold 65536 100 Knet.st0 Knet.h0 ⟨"zlib", 6, 0⟩ Knet.envOk 1
    (by decide) (by decide) (by decide) (by decide) (by decide) (by decide)).2.1
    (by decide)

namespace Knet

theorem getD_set_self {α : Type} (l : List α) (i : Nat) (a d : α) :
    (l.set i a).getD i d = if i < l.length then a else d := by
  induction l generalizing i with
  | nil => simp [List.set]
  | cons x xs ih =>
    cases i with
    | zero => simp
    | succ n => simpa [Nat.succ_lt_succ_iff] using ih n

theorem getD_set_ne {α : Type} (l : List α) (i k : Nat) (a d : α) (hne : k ≠ i) :
    (l.set i a).getD k d = l.getD k d := by
  induction l generalizing i k with
  | nil => simp [List.set]
  | cons x xs ih =>
    cases i with
    | zero =>
      cases k with
      | zero => exact absurd rfl hne
      | succ kk => simp
    | succ n =>
      cases k with
      | zero => simp
      | succ kk => simpa using ih n kk (by omega)

theorem fini_row_fst (cap : Nat) (r : ModelRow) (idx : Nat) (h : Handle) :
    (fini_row cap r idx h).1 = fini_row_update cap idx r := by
  unfold fini_row fini_row_update
  by_cases hc : r.built_in = true ∧ r.loaded = true ∧ idx < cap
  · by_cases hz : r.libref - 1 = 0 <;> simp [hc, hz]
  · simp [hc]

theorem fini_row_update_libref (cap idx : Nat) (r : ModelRow) :
    (fini_row_update cap idx r).libref =
      if r.built_in = true ∧ r.loaded = true ∧ idx < cap
      then r.libref - 1 else r.libref := by
  unfold fini_row_update
  by_cases hc : r.built_in = true ∧ r.loaded = true ∧ idx < cap
  · by_cases hz : r.libref - 1 = 0 <;> simp [hc, hz]
  · simp [hc]

/-- Position `j` of the table after the `compress_fini` loop: rows below
the sentinel are passed through `fini_row_update`, the rest untouched. -/
theorem fini_loop_fst_getD (cap : Nat) (l : List ModelRow) :
    ∀ (idx : Nat) (h : Handle) (j : Nat),
      (fini_loop cap l idx h).1.getD j sentinel =
        if j < named_count l
        then fini_row_update cap (idx + j) (l.getD j sentinel)
        else l.getD j sentinel := by
  induction l with
  | nil => intro idx h j; simp [fini_loop, named_count]
  | cons r rest ih =>
    intro idx h j
    by_cases hn : r.model_name = none
    · simp [fini_loop, hn, named_count]
    · cases j with
      | zero => simp [fini_loop, hn, named_count, fini_row_fst]
      | succ k =>
        have hk := ih (idx + 1) (fini_row cap r idx h).2.1 k
        simp only [fini_loop, named_count, hn, if_false, ite_false,
          List.getD_cons_succ]
        rw [hk]
        have harith : idx + 1 + k = idx + (k + 1) := by omega
        rw [harith]
        by_cases hlt : k < named_count rest <;> simp [hlt, Nat.succ_lt_succ_iff]

end Knet

/-- C4: the claim asserts `compress_fini` decrements only the libref
charges this handle made.  False: a row loaded and charged by a
different handle (here zlib with `libref = 1`, while this handle holds
no charge marker at all) is still decremented and unloaded. -/
theorem claim4_counterexample :
    Knet.h0.compress_int_data 1 = false ∧
    (Knet.st_c4.row 1).libref = 1 ∧
    ((Knet.compress_fini 16 Knet.st_c4 Knet.h0 Knet.envOk).st.row 1).libref = 0 ∧
    ((Knet.compress_fini 16 Knet.st_c4 Knet.h0 Knet.envOk).st.row 1).loaded = false := by
  decide

/-- C4 (amended): once the write lock is acquired, `compress_fini`
decrements `libref` exactly once on every row before the sentinel that
is built in, loaded and indexed below `KNET_MAX_COMPRESS_METHODS` —
independent of whether this handle charged it — and leaves every other
row's `libref` unchanged. -/
theorem claim4_fini_decrements (cap : Nat) (st : Knet.GlobalState) (h : Knet.Handle)
    (env : Knet.Env) (hw : env.wrlock_errno = 0) (j : Nat) :
    ((Knet.compress_fini cap st h env).st.row j).libref =
      (if j < Knet.named_count st.table ∧ (st.row j).built_in = true ∧
          (st.row j).loaded = true ∧ j < cap
       then (st.row j).libref - 1 else (st.row j).libref) := by
  unfold Knet.compress_fini
  rw [if_neg (by simp [hw])]
  simp only [Knet.GlobalState.row]
  rw [Knet.fini_loop_fst_getD]
  by_cases h1 : j < Knet.named_count st.table
  · simp only [h1, if_true, Nat.zero_add, Knet.fini_row_update_libref, true_and]
  · simp [h1]

namespace Knet

/-- Spec invariant 2 for one row: `libref > 0` implies `loaded`. -/
def RowInv (r : ModelRow) : Prop := 0 < r.libref → r.loaded = true

instance (r : ModelRow) : Decidable (RowInv r) := by
  unfold RowInv; infer_instance

/-- Spec invariant 2 over the whole table. -/
def Inv (st : GlobalState) : Prop := ∀ r ∈ st.table, RowInv r

instance (st : GlobalState) : Decidable (Inv st) :=
  List.decidableBAll _ _

theorem Inv.setRow {st : GlobalState} {m : Nat} {r : ModelRow}
    (hInv : Inv st) (hr : RowInv r) : Inv (st.setRow m r) := by
  intro x hx
  rcases List.mem_or_eq_of_mem_set hx with hmem | heq
  · exact hInv x hmem
  · subst heq; exact hr

theorem init_step_inv {st : GlobalState} {row : ModelRow} {h : Handle} {m : Nat}
    {env : Env} {evs : List Ev} (hInv : Inv st) (hl : row.loaded = true) :
    Inv (init_step st row h m env evs).st := by
  unfold init_step
  split_ifs with hi ho
  · exact hInv
  · exact hInv.setRow (fun _ => hl)
  · exact hInv.setRow (fun _ => hl)

theorem load_and_init_inv {st : GlobalState} {h : Handle} {m : Nat}
    {env : Env} {evs : List Ev} (hInv : Inv st) :
    Inv (load_and_init st h m env evs).st := by
  simp only [load_and_init]
  split_ifs with hld hll hlo
  · exact hInv
  · exact hInv
  · exact init_step_inv (hInv.setRow (fun _ => rfl)) rfl
  · exact init_step_inv hInv (by revert hld; cases (st.row m).loaded <;> simp)

theorem check_init_lib_inv {st : GlobalState} {h : Handle} {m : Nat}
    {rl : Bool} {env : Env} (hInv : Inv st) :
    Inv (check_init_lib st h m rl env).st := by
  simp only [check_init_lib]
  split_ifs
  all_goals first
    | exact load_and_init_inv hInv
    | exact hInv

/-- `compress_cfg` leaves the global state untouched or exactly as
`check_init_lib` produced it. -/
theorem compress_cfg_st (mp dt : Nat) (st : GlobalState) (h : Handle)
    (cfg : CompressCfg) (env : Env) :
    (compress_cfg mp dt st h cfg env).st = st ∨
    (compress_cfg mp dt st h cfg env).st =
      (check_init_lib st h (get_model st.table cfg.compress_model).toNat false env).st := by
  unfold compress_cfg
  by_cases h1 : get_model st.table cfg.compress_model < 0
  · simp [h1]
  · by_cases h2 : 0 < get_model st.table cfg.compress_model
    · by_cases h3 : (st.row (get_model st.table cfg.compress_model).toNat).built_in = false
      · simp [h1, h2, h3]
      · simp only [h1, h2, h3, if_false, if_true, ite_true, ite_false]
        cases hout : (check_init_lib st h (get_model st.table cfg.compress_model).toNat false env).out
        all_goals simp only [hout]
        all_goals split_ifs <;> simp
    · simp [h1, h2]

/-- `compress` leaves the global state exactly as `check_init_lib`
produced it. -/
theorem compress_st (st : GlobalState) (h : Handle) (buf : Int) (env : Env) :
    (compress st h buf env).st = (check_init_lib st h h.compress_model false env).st := by
  unfold compress
  cases hout : (check_init_lib st h h.compress_model false env).out
  all_goals simp only [hout]
  all_goals split_ifs <;> simp

/-- `decompress` leaves the global state untouched or exactly as
`check_init_lib` produced it. -/
theorem decompress_st (st : GlobalState) (h : Handle) (w : Nat) (buf : Int)
    (env : Env) :
    (decompress st h w buf env).st = st ∨
    (decompress st h w buf env).st = (check_init_lib st h w true env).st := by
  unfold decompress
  by_cases h1 : (w : Int) > st.max_model
  · simp [h1]
  · by_cases h2 : is_valid_model st.table w = false
    · simp [h1, h2]
    · simp only [h1, h2, if_false, if_true, ite_true, ite_false]
      cases hout : (check_init_lib st h w true env).out
      all_goals simp only [hout]
      all_goals split_ifs <;> simp

theorem fini_row_update_rowinv {cap idx : Nat} {r : ModelRow}
    (hr : RowInv r) : RowInv (fini_row_update cap idx r) := by
  by_cases hc : r.built_in = true ∧ r.loaded = true ∧ idx < cap
  · by_cases hz : r.libref - 1 = 0
    · simp [fini_row_update, hc, hz, RowInv]
    · simp [fini_row_update, hc, hz, RowInv, hc.2.1]
  · simpa [fini_row_update, hc] using hr

theorem fini_loop_rowinv (cap : Nat) (l : List ModelRow) :
    ∀ (idx : Nat) (h : Handle), (∀ r ∈ l, RowInv r) →
      ∀ r ∈ (fini_loop cap l idx h).1, RowInv r := by
  induction l with
  | nil =>
    intro idx h hl r hr
    simp [fini_loop] at hr
  | cons x xs ih =>
    intro idx h hl r hr
    by_cases hn : x.model_name = none
    · rw [fini_loop, if_pos hn] at hr
      exact hl r hr
    · rw [fini_loop, if_neg hn] at hr
      rcases List.mem_cons.mp hr with heq | hmem
      · subst heq
        rw [fini_row_fst]
        exact fini_row_update_rowinv (hl x (List.mem_cons_self x xs))
      · exact ih (idx + 1) (fini_row cap x idx h).2.1
          (fun r' hr' => hl r' (List.mem_cons_of_mem x hr')) r hmem

theorem compress_fini_inv {cap : Nat} {st : GlobalState} {h : Handle}
    {env : Env} (hInv : Inv st) : Inv (compress_fini cap st h env).st := by
  unfold compress_fini
  split_ifs with hw
  · exact hInv
  · exact fini_loop_rowinv cap st.table 0 h hInv

end Knet

/-- C5: `libref > 0 ⇒ loaded` holds on every table row and is preserved
by each of the five operations: ensure-init, configure, compress,
decompress and finalise (the code increments `libref` only once
`loaded` is ensured, and clears `loaded` only when `libref` is zero
after the decrement). -/
theorem claim5_invariant (mp dt cap : Nat) (st : Knet.GlobalState) (h : Knet.Handle)
    (m wire : Nat) (rl : Bool) (cfg : Knet.CompressCfg) (env : Knet.Env) (buf : Int)
    (hInv : Knet.Inv st) :
    Knet.Inv (Knet.check_init_lib st h m rl env).st ∧
    Knet.Inv (Knet.compress_cfg mp dt st h cfg env).st ∧
    Knet.Inv (Knet.compress st h buf env).st ∧
    Knet.Inv (Knet.decompress st h wire buf env).st ∧
    Knet.Inv (Knet.compress_fini cap st h env).st := by
  refine ⟨Knet.check_init_lib_inv hInv, ?_, ?_, ?_, Knet.compress_fini_inv hInv⟩
  · rcases Knet.compress_cfg_st mp dt st h cfg env with he | he <;> rw [he]
    · exact hInv
    · exact Knet.check_init_lib_inv hInv
  · rw [Knet.compress_st]
    exact Knet.check_init_lib_inv hInv
  · rcases Knet.decompress_st st h wire buf env with he | he <;> rw [he]
    · exact hInv
    · exact Knet.check_init_lib_inv hInv

/-- Witness for C5 on the fresh all-codecs state. -/
theorem claim5_witness :
    Knet.Inv (Knet.check_init_lib Knet.st0 Knet.h0 1 false Knet.envOk).st ∧
    Knet.Inv (Knet.compress_cfg 65536 100 Knet.st0 Knet.h0 ⟨"zlib", 6, 0⟩ Knet.envOk).st ∧
    Knet.Inv (Knet.compress Knet.st0 Knet.h0 5 Knet.envOk).st ∧
    Knet.Inv (Knet.decompress Knet.st0 Knet.h0 1 5 Knet.envOk).st ∧
    Knet.Inv (Knet.compress_fini 16 Knet.st0 Knet.h0 Knet.envOk).st :=
  claim5_invariant 65536 100 16 Knet.st0 Knet.h0 1 1 false ⟨"zlib", 6, 0⟩
    Knet.envOk 5 (by decide)

namespace Knet

/-- `check_init_lib` reads only the `compress_int_data` field of the
handle: two handles agreeing there produce the same outcome, state,
events and logs. -/
theorem check_init_lib_handle_congr (st : GlobalState) (h1 h2 : Handle) (m : Nat)
    (rl : Bool) (env : Env)
    (hd : h1.compress_int_data = h2.compress_int_data) :
    (check_init_lib st h1 m rl env).out = (check_init_lib st h2 m rl env).out ∧
    (check_init_lib st h1 m rl env).st = (check_init_lib st h2 m rl env).st ∧
    (check_init_lib st h1 m rl env).evs = (check_init_lib st h2 m rl env).evs ∧
    (check_init_lib st h1 m rl env).logs = (check_init_lib st h2 m rl env).logs := by
  simp only [check_init_lib, fast_path, load_and_init, init_step, hd]
  by_cases c1 : env.rdlock_errno ≠ 0
  · simp [c1]
  · by_cases c2 : ((st.row m).loaded = true ∧
        if (st.row m).has_is_init = true then env.is_init_res m = true
        else h2.compress_int_data m = true)
    · simp [c1, c2]
    · by_cases c3 : (rl = true ∧ st.last_load_failure ≠ 0 ∧
          env.clock_now - st.last_load_failure < rate_limit_window)
      · simp [c1, c2, c3]
      · by_cases c4 : env.wrlock_errno ≠ 0
        · simp [c1, c2, c3, c4]
        · by_cases c5 : (st.row m).loaded = false
          · by_cases c6 : (st.row m).has_load_lib = false
            · simp [c1, c2, c3, c4, c5, c6]
            · by_cases c7 : env.load_lib_ok m = false
              · simp [c1, c2, c3, c4, c5, c6, c7]
              · by_cases c8 : (st.row m).has_init = true
                · by_cases c9 : env.init_ok m = false <;>
                    simp [c1, c2, c3, c4, c5, c6, c7, c8, c9]
                · simp [c1, c2, c3, c4, c5, c6, c7, c8]
          · have c5' : (st.row m).loaded = true := by
              revert c5; cases (st.row m).loaded <;> simp
            have c2' : ¬ (if (st.row m).has_is_init = true then env.is_init_res m = true
                else h2.compress_int_data m = true) := fun hx => c2 ⟨c5', hx⟩
            by_cases c8 : (st.row m).has_init = true
            · by_cases c9 : env.init_ok m = false <;>
                simp [c1, c2, c2', c3, c4, c5, c8, c9]
            · simp [c1, c2, c2', c3, c4, c5, c8]

/-- In the table, the `load_lib` and `compress` slots are non-NULL
exactly on built-in rows. -/
theorem row_ops_eq_builtin (bf : BuildFlags) (m : Nat) :
    ((compress_modules_cmds bf).getD m sentinel).has_load_lib =
      ((compress_modules_cmds bf).getD m sentinel).built_in ∧
    ((compress_modules_cmds bf).getD m sentinel).has_compress =
      ((compress_modules_cmds bf).getD m sentinel).built_in := by
  rcases bf with ⟨z, l4, lo, lm, bz⟩
  by_cases hlt : m < 8
  · interval_cases m <;> cases z <;> cases l4 <;> cases lo <;> cases lm <;>
      cases bz <;> decide
  · have hlen : (compress_modules_cmds ⟨z, l4, lo, lm, bz⟩).length = 8 := by
      cases z <;> cases l4 <;> cases lo <;> cases lm <;> cases bz <;> rfl
    rw [List.getD_eq_default _ _ (by omega)]
    decide

theorem setRow_has_compress (st : GlobalState) (m : Nat) (r : ModelRow) (k : Nat)
    (hr : r.has_compress = (st.row m).has_compress) :
    ((st.setRow m r).row k).has_compress = (st.row k).has_compress := by
  by_cases hk : k = m
  · subst hk
    show ((st.table.set k r).getD k sentinel).has_compress =
      (st.table.getD k sentinel).has_compress
    rw [getD_set_self]
    by_cases hlen : k < st.table.length
    · rw [if_pos hlen]; exact hr
    · rw [if_neg hlen, List.getD_eq_default _ _ (le_of_not_lt hlen)]
  · show ((st.table.set m r).getD k sentinel).has_compress =
      (st.table.getD k sentinel).has_compress
    rw [getD_set_ne _ _ _ _ _ hk]

/-- `check_init_lib` changes only `loaded`, `libref` and the global
timestamp; the `compress` slot of every row is untouched. -/
theorem check_init_lib_has_compress (st : GlobalState) (h : Handle) (m : Nat)
    (rl : Bool) (env : Env) (k : Nat) :
    ((check_init_lib st h m rl env).st.row k).has_compress =
      (st.row k).has_compress := by
  simp only [check_init_lib, fast_path, load_and_init, init_step]
  by_cases c1 : env.rdlock_errno ≠ 0
  · simp [c1]
  · by_cases c2 : ((st.row m).loaded = true ∧
        if (st.row m).has_is_init = true then env.is_init_res m = true
        else h.compress_int_data m = true)
    · simp [c1, c2]
    · by_cases c3 : (rl = true ∧ st.last_load_failure ≠ 0 ∧
          env.clock_now - st.last_load_failure < rate_limit_window)
      · simp [c1, c2, c3]
      · by_cases c4 : env.wrlock_errno ≠ 0
        · simp [c1, c2, c3, c4]
        · by_cases c5 : (st.row m).loaded = false
          · by_cases c6 : (st.row m).has_load_lib = false
            · simp [c1, c2, c3, c4, c5, c6]
            · by_cases c7 : env.load_lib_ok m = false
              · simp [c1, c2, c3, c4, c5, c6, c7]
                rfl
              · by_cases c8 : (st.row m).has_init = true
                · by_cases c9 : env.init_ok m = false
                  · simp [c1, c2, c3, c4, c5, c6, c7, c8, c9]
                    exact setRow_has_compress st m _ k rfl
                  · simp [c1, c2, c3, c4, c5, c6, c7, c8, c9]
                    refine (setRow_has_compress _ _ _ _ ?_).trans
                      (setRow_has_compress st m _ k rfl)
                    refine Eq.symm (setRow_has_compress st m _ m ?_)
                    rfl
                · simp [c1, c2, c3, c4, c5, c6, c7, c8]
                  refine (setRow_has_compress _ _ _ _ ?_).trans
                    (setRow_has_compress st m _ k rfl)
                  refine Eq.symm (setRow_has_compress st m _ m ?_)
                  rfl
          · by_cases c8 : (st.row m).has_init = true
            · have c5' : (st.row m).loaded = true := by
                revert c5; cases (st.row m).loaded <;> simp
              have c2' : ¬ (if (st.row m).has_is_init = true then env.is_init_res m = true
                  else h.compress_int_data m = true) := fun hx => c2 ⟨c5', hx⟩
              by_cases c9 : env.init_ok m = false
              · simp [c1, c2, c2', c3, c4, c5, c8, c9]
              · simp [c1, c2, c2', c3, c4, c5, c8, c9]
                exact setRow_has_compress _ _ _ _ rfl
            · have c5' : (st.row m).loaded = true := by
                revert c5; cases (st.row m).loaded <;> simp
              have c2' : ¬ (if (st.row m).has_is_init = true then env.is_init_res m = true
                  else h.compress_int_data m = true) := fun hx => c2 ⟨c5', hx⟩
              simp [c1, c2, c2', c3, c4, c5, c8]
              exact setRow_has_compress _ _ _ _ rfl

/-- With a non-NULL `load_lib` slot, `check_init_lib` never reaches a
NULL-pointer call. -/
theorem check_init_lib_no_nullcall (st : GlobalState) (h : Handle) (m : Nat)
    (rl : Bool) (env : Env) (hll : (st.row m).has_load_lib = true) :
    (check_init_lib st h m rl env).out ≠ CIOut.nullCall := by
  simp only [check_init_lib, fast_path, load_and_init, init_step]
  by_cases c1 : env.rdlock_errno ≠ 0
  · simp [c1]
  · by_cases c2 : ((st.row m).loaded = true ∧
        if (st.row m).has_is_init = true then env.is_init_res m = true
        else h.compress_int_data m = true)
    · simp [c1, c2]
    · by_cases c3 : (rl = true ∧ st.last_load_failure ≠ 0 ∧
          env.clock_now - st.last_load_failure < rate_limit_window)
      · simp [c1, c2, c3]
      · by_cases c4 : env.wrlock_errno ≠ 0
        · simp [c1, c2, c3, c4]
        · by_cases c5 : (st.row m).loaded = false
          · have c6 : ¬ ((st.row m).has_load_lib = false) := by simp [hll]
            by_cases c7 : env.load_lib_ok m = false
            · simp [c1, c2, c3, c4, c5, c6, c7]
            · by_cases c8 : (st.row m).has_init = true
              · by_cases c9 : env.init_ok m = false <;>
                  simp [c1, c2, c3, c4, c5, c6, c7, c8, c9]
              · simp [c1, c2, c3, c4, c5, c6, c7, c8]
          · have c5' : (st.row m).loaded = true := by
              revert c5; cases (st.row m).loaded <;> simp
            have c2' : ¬ (if (st.row m).has_is_init = true then env.is_init_res m = true
                else h.compress_int_data m = true) := fun hx => c2 ⟨c5', hx⟩
            by_cases c8 : (st.row m).has_init = true
            · by_cases c9 : env.init_ok m = false <;>
                simp [c1, c2, c2', c3, c4, c5, c8, c9]
            · simp [c1, c2, c2', c3, c4, c5, c8]

/-- A wire tag 0 is never a valid model: the "none" row is not built
in, and no other row carries id 0. -/
theorem none_not_valid (bf : BuildFlags) :
    is_valid_model (compress_modules_cmds bf) 0 = false := by
  rcases bf with ⟨z, l4, lo, lm, bz⟩
  cases z <;> cases l4 <;> cases lo <;> cases lm <;> cases bz <;> decide

/-- C8 witness fixtures: zlib loaded and charged, a handle configured
for zlib with threshold 1000. -/
def st_zlib : GlobalState := st0.setRow 1 { st0.row 1 with loaded := true, libref := 1 }

def h_zlib : Handle := ⟨1, 6, 1000, fun j => decide (j = 1)⟩

end Knet

/-- C8: the send-path `compress` never reads `compress_threshold` — its
outcome, state, events and logs are unchanged when the threshold is
replaced by any value — and whenever ensure-init succeeds it invokes
the back-end's `compress` on the full buffer, whatever `buf_in_len`
is.  Enforcing the threshold is the caller's job. -/
theorem claim8_threshold_not_enforced (st : Knet.GlobalState) (h : Knet.Handle)
    (t : Nat) (buf_in_len : Int) (env : Knet.Env) :
    ((Knet.compress st { h with compress_threshold := t } buf_in_len env).out =
        (Knet.compress st h buf_in_len env).out ∧
      (Knet.compress st { h with compress_threshold := t } buf_in_len env).st =
        (Knet.compress st h buf_in_len env).st ∧
      (Knet.compress st { h with compress_threshold := t } buf_in_len env).evs =
        (Knet.compress st h buf_in_len env).evs ∧
      (Knet.compress st { h with compress_threshold := t } buf_in_len env).logs =
        (Knet.compress st h buf_in_len env).logs) ∧
    ((Knet.check_init_lib st h h.compress_model false env).out = Knet.CIOut.ok →
      ((Knet.check_init_lib st h h.compress_model false env).st.row h.compress_model).has_compress = true →
      Knet.Ev.codecCompress h.compress_model buf_in_len ∈
        (Knet.compress st h buf_in_len env).evs) := by
  constructor
  · obtain ⟨ho, hs, he, hl⟩ := Knet.check_init_lib_handle_congr st
      { h with compress_threshold := t } h h.compress_model false env rfl
    unfold Knet.compress
    dsimp only
    rw [ho, hs, he, hl]
    cases hout : (Knet.check_init_lib st h h.compress_model false env).out
    all_goals simp only [hout]
    all_goals first
      | (split_ifs <;> simp)
      | simp
  · intro hok hcp
    unfold Knet.compress
    simp [hok, hcp]

/-- Witness for C8: with a 1000-byte threshold, a 5-byte buffer is
still handed to the zlib back-end. -/
theorem claim8_witness :
    Knet.Ev.codecCompress Knet.h_zlib.compress_model 5 ∈
      (Knet.compress Knet.st_zlib Knet.h_zlib 5 Knet.envOk).evs :=
  (claim8_threshold_not_enforced Knet.st_zlib Knet.h_zlib 1000 5 Knet.envOk).2
    (by decide) (by decide)

/-- C9: `compress` validates nothing about the configured model.  With
`compress_model = 0` ("none") or any non-built-in placeholder row —
i.e. without a prior successful `compress_cfg` of a non-zero built-in
model — execution reaches `check_init_lib`'s `load_lib` call on a row
whose slot is NULL (undefined behaviour in C); under the precondition
that the configured row is built in, that NULL call is unreachable. -/
theorem claim9_compress_no_validation (st : Knet.GlobalState) (h : Knet.Handle)
    (env : Knet.Env) (bf : Knet.BuildFlags) (buf : Int)
    (ht : st.table = Knet.compress_modules_cmds bf)
    (hrd : env.rdlock_errno = 0) (hwr : env.wrlock_errno = 0) :
    ((st.row h.compress_model).loaded = false →
      (st.row h.compress_model).built_in = false →
      (Knet.compress st h buf env).out = Knet.TOut.nullCall) ∧
    ((st.row h.compress_model).built_in = true →
      (Knet.compress st h buf env).out ≠ Knet.TOut.nullCall) := by
  have hrow : st.row h.compress_model =
      (Knet.compress_modules_cmds bf).getD h.compress_model Knet.sentinel := by
    simp [Knet.GlobalState.row, ht]
  constructor
  · intro hld hb0
    have hll : (st.row h.compress_model).has_load_lib = false := by
      rw [hrow, (Knet.row_ops_eq_builtin bf h.compress_model).1, ← hrow, hb0]
    simp [Knet.compress, Knet.check_init_lib, Knet.fast_path, Knet.load_and_init,
      hrd, hwr, hld, hll]
  · intro hbi
    have hll : (st.row h.compress_model).has_load_lib = true := by
      rw [hrow, (Knet.row_ops_eq_builtin bf h.compress_model).1, ← hrow, hbi]
    have hcp : (st.row h.compress_model).has_compress = true := by
      rw [hrow, (Knet.row_ops_eq_builtin bf h.compress_model).2, ← hrow, hbi]
    have hnn := Knet.check_init_lib_no_nullcall st h h.compress_model false env hll
    have hcp2 : ((Knet.check_init_lib st h h.compress_model false env).st.row
        h.compress_model).has_compress = true := by
      rw [Knet.check_init_lib_has_compress]; exact hcp
    unfold Knet.compress
    cases hout : (Knet.check_init_lib st h h.compress_model false env).out
    · simp [hout, hcp2]
    · simp [hout]
    · exact absurd hout hnn

/-- Witness for C9: a fresh handle (model 0, "none") sent through
`compress` reaches the NULL `load_lib` slot. -/
theorem claim9_witness :
    (Knet.compress Knet.st0 Knet.h0 5 Knet.envOk).out = Knet.TOut.nullCall :=
  (claim9_compress_no_validation Knet.st0 Knet.h0 Knet.envOk Knet.bfAll 5
    rfl (by decide) (by decide)).1 (by decide) (by decide)

/-- C10: `decompress` with wire tag 0 ("none") always fails with
EINVAL through the not-built-in check — the "none" row has
`built_in = 0` — with no state change and no back-end call, so the
receive path must never route an uncompressed packet here. -/
theorem claim10_decompress_zero (bf : Knet.BuildFlags) (st : Knet.GlobalState)
    (h : Knet.Handle) (buf : Int) (env : Knet.Env)
    (ht : st.table = Knet.compress_modules_cmds bf)
    (hmm : 0 ≤ st.max_model) :
    (Knet.decompress st h 0 buf env).out = .err Knet.EINVAL ∧
    (Knet.decompress st h 0 buf env).st = st ∧
    (Knet.decompress st h 0 buf env).h = h ∧
    (Knet.decompress st h 0 buf env).evs = [] ∧
    (Knet.decompress st h 0 buf env).logs =
      [Knet.Log.decompressNotBuiltIn (some "none")] := by
  have h1 : ¬ (st.max_model < 0) := not_lt.mpr hmm
  have h2 : Knet.is_valid_model st.table 0 = false := by
    rw [ht]; exact Knet.none_not_valid bf
  have h3 : (st.row 0).model_name = some "none" := by
    simp [Knet.GlobalState.row, ht, Knet.compress_modules_cmds, Knet.empty_module]
  simp [Knet.decompress, h1, h2, h3]

/-- Witness for C10 at the fresh all-codecs state. -/
theorem claim10_witness :
    (Knet.decompress Knet.st0 Knet.h0 0 10 Knet.envOk).out = .err Knet.EINVAL ∧
    (Knet.decompress Knet.st0 Knet.h0 0 10 Knet.envOk).st = Knet.st0 ∧
    (Knet.decompress Knet.st0 Knet.h0 0 10 Knet.envOk).h = Knet.h0 ∧
    (Knet.decompress Knet.st0 Knet.h0 0 10 Knet.envOk).evs = [] ∧
    (Knet.decompress Knet.st0 Knet.h0 0 10 Knet.envOk).logs =
      [Knet.Log.decompressNotBuiltIn (some "none")] :=
  claim10_decompress_zero Knet.bfAll Knet.st0 Knet.h0 10 Knet.envOk rfl (by decide)

/-- Witness for C4 (amended) on the counterexample state. -/
theorem claim4_witness :
    ((Knet.compress_fini 16 Knet.st_c4 Knet.h0 Knet.envOk).st.row 1).libref =
      (if 1 < Knet.named_count Knet.st_c4.table ∧ (Knet.st_c4.row 1).built_in = true ∧
          (Knet.st_c4.row 1).loaded = true ∧ 1 < 16
       then (Knet.st_c4.row 1).libref - 1 else (Knet.st_c4.row 1).libref) :=
  claim4_fini_decrements 16 Knet.st_c4 Knet.h0 Knet.envOk (by decide) 1
